import Mathlib

/-!
Shallow embedding of the LCCN→Wikidata reconciliation bot (`src/script.py` and
`src/lib/llm.py`).  Python dict values become structure fields; the mutable
`log_writes` list, the sqlite `ids` table and the per-page loops become explicit
state threaded through pure functions.  Strings are compared with the same
operations the source uses (`.lower()` → `String.toLower`, `.strip()` →
`String.trim`, `"\n"`-splitting for line counts).
-/

namespace LccnBot

/-- One entry appended to `log_writes` in `script.py`
(a dict with keys lccn/qid/action/old/new). -/
structure LogWrite where
  lccn : String
  qid : String
  action : String
  old : String
  new : String
deriving DecidableEq, Repr

/-- A P244 claim as fetched from the target entity: its mainsnak string value and
the list of its P1810 ("named as") qualifier string values, in order. -/
structure WikiClaim where
  value : String
  namedAs : List String
deriving DecidableEq, Repr

/-- The new P244 claim constructed at `script.py:473-485`: external-id value,
P1810 qualifier values, and the reference snak pairs (P248 stated-in,
P813 retrieved-date built from the current date). -/
structure LccnIdClaim where
  value : String
  namedAs : List String
  references : List (String × String)
deriving DecidableEq, Repr

/-- A row of the sqlite table `ids(key, lccn, timestamp)`. -/
structure LedgerEntry where
  key : String
  lccn : String
  timestamp : Int
deriving DecidableEq, Repr

/-- `script.py:231`: `db_id = f"{lccn}-{date_pub}-{date_update}"`. -/
def mkKey (lccn datePub dateUpdate : String) : String :=
  lccn ++ "-" ++ datePub ++ "-" ++ dateUpdate

/-- `script.py:233-234`: `SELECT * FROM ids WHERE key = db_id` followed by
`len(result) == 0`; `true` means the record version was already processed. -/
def seen (db : List LedgerEntry) (key : String) : Bool :=
  (db.filter (fun e => e.key == key)).length != 0

/-- `script.py:93-105`: select the rows with `timestamp < now - 2_592_000`
(30 days), print their count, delete them.  Returns the surviving table and the
printed count. -/
def prune (db : List LedgerEntry) (now : Int) : List LedgerEntry × Nat :=
  let one_month_ago := now - 2592000
  let result := db.filter (fun e => decide (e.timestamp < one_month_ago))
  let remaining := db.filter (fun e => ! decide (e.timestamp < one_month_ago))
  (remaining, result.length)

/-- Log-entry shapes appended by the record loop of `script.py`. -/
def addP244Log (lccn qid : String) : LogWrite :=
  ⟨lccn, qid, "ADD_P244", "", ""⟩

/-- `script.py:407`. -/
def namedAsChangeLog (lccn qid old new : String) : LogWrite :=
  ⟨lccn, qid, "NAMED_AS_CHANGE", old, new⟩

/-- `script.py:434`. -/
def namedAsAddedLog (lccn qid new : String) : LogWrite :=
  ⟨lccn, qid, "NAMED_AS_ADDED", "", new⟩

/-- `script.py:456`: the review item recorded when the target has P244 claims
but none matching the source's LCCN (the spec's `FlagForReview{reason:
"claim-mismatch"}`). -/
def claimMismatchLog (lccn qid : String) : LogWrite :=
  ⟨lccn, qid, "NEED_REVIEW", "", "LCCN already exist but not the one we are trying to add."⟩

/-- `script.py:545`. -/
def multiLccnLog (lccn qidsJoined : String) : LogWrite :=
  ⟨lccn, qidsJoined, "MULTI_LCCN_IN_WIKI", "", "LCCN Used in multiple Qids"⟩

/-- Python's `str.strip()`: drop whitespace from both ends. -/
def pyStrip (s : String) : String :=
  String.mk (((s.toList.dropWhile Char.isWhitespace).reverse.dropWhile
    Char.isWhitespace).reverse)

/-- The comparison of `script.py:402`: `q.datavalue['value'].strip() != l['pref']`. -/
def differs (pref q : String) : Bool :=
  ! (pyStrip q == pref)

/-- The inner qualifier loop of `script.py:401-412`: walk the P1810 qualifier
values in order; at the first whose stripped value differs from the preferred
label, overwrite it with the label and stop (`break`).  Returns the resulting
qualifier list and the original value of the overwritten entry (if any). -/
def updateNamedAs (pref : String) : List String → List String × Option String
  | [] => ([], none)
  | q :: qs =>
    if differs pref q then
      (pref :: qs, some q)
    else
      let r := updateNamedAs pref qs
      (q :: r.1, r.2)

/-- Outcome of handling one P244 claim whose value matches the source LCCN. -/
structure ClaimOutcome where
  logs : List LogWrite
  namedAs : List String
  ledgerKeys : List String
deriving DecidableEq, Repr

/-- `script.py:392-443`: the body run for a claim `c` with
`c.mainsnak.datavalue['value'].lower() == lccn.lower()`.  With qualifiers
present, run the update loop (logging `NAMED_AS_CHANGE` when an entry was
overwritten) and insert the ledger row; with none, add the preferred label as a
new P1810 qualifier, log `NAMED_AS_ADDED`, and insert the ledger row. -/
def handleMatchingClaim (lccn wikiId pref dbId : String) (c : WikiClaim) : ClaimOutcome :=
  if c.namedAs.length > 0 then
    let u := updateNamedAs pref c.namedAs
    { logs := match u.2 with
        | some old => [namedAsChangeLog lccn wikiId old pref]
        | none => []
      namedAs := u.1
      ledgerKeys := [dbId] }
  else
    { logs := [namedAsAddedLog lccn wikiId pref]
      namedAs := c.namedAs ++ [pref]
      ledgerKeys := [dbId] }

/-- `script.py:391`: case-insensitive comparison of a claim's value with the
source record's LCCN. -/
def lcMatch (lccn : String) (c : WikiClaim) : Bool :=
  c.value.toLower == lccn.toLower

/-- The `for c in p244` loop of `script.py:389-451`: non-matching claims fall
through (`pass`); matching claims are handled; outputs accumulate in order. -/
def claimLoop (lccn wikiId pref dbId : String) : List WikiClaim → List LogWrite × List String
  | [] => ([], [])
  | c :: cs =>
    let rest := claimLoop lccn wikiId pref dbId cs
    if lcMatch lccn c then
      let o := handleMatchingClaim lccn wikiId pref dbId c
      (o.logs ++ rest.1, o.ledgerKeys ++ rest.2)
    else
      rest

/-- Everything one record's wiki branch produces. -/
structure RecordOutcome where
  logs : List LogWrite
  ledgerKeys : List String
  addedClaim : Option LccnIdClaim
  brk : Bool
  lccnsToCheck : List String
deriving DecidableEq, Repr

/-- `script.py:386-507`, the branch taken once a Wikidata id was extracted and
the preferred label fetched.  `p244` is the snapshot of the target's P244
claims.  With claims present: run the claim loop, and if none matched
(`has_lccn == False`) log the claim-mismatch review item and insert the ledger
row.  With no claims: build the new P244 claim (P1810 qualifier = preferred
label, P248/P813 references), write it, log `ADD_P244`, and `break`
(`script.py:499`) — the append to `lccns_to_check_wikidata_count` and the
ledger INSERT at `script.py:502-507` sit after the `break` and are unreachable,
so that branch contributes no ledger key and no lccn to re-check. -/
def processWiki (lccn dbId pref wikiId today : String) (p244 : List WikiClaim) :
    RecordOutcome :=
  if p244.length > 0 then
    let loopOut := claimLoop lccn wikiId pref dbId p244
    let hasLccn := p244.any (lcMatch lccn)
    if hasLccn then
      { logs := loopOut.1, ledgerKeys := loopOut.2, addedClaim := none
        brk := false, lccnsToCheck := [] }
    else
      { logs := loopOut.1 ++ [claimMismatchLog lccn wikiId]
        ledgerKeys := loopOut.2 ++ [dbId], addedClaim := none
        brk := false, lccnsToCheck := [] }
  else
    { logs := [addP244Log lccn wikiId]
      ledgerKeys := []
      addedClaim := some
        { value := lccn, namedAs := [pref]
          references := [("P248", "Q18912790"), ("P813", "+" ++ today ++ "T00:00:00Z")] }
      brk := true
      lccnsToCheck := [] }

/-- A record of one feed page after the XML fetch/parse and (when a Wikidata id
was found) the preferred-label and item fetches, i.e. the input to the branch at
`script.py:306`.  `noWiki` carries the optional `VIAF_SUGGESTION` log entry the
external VIAF lookup of `script.py:314-351` may produce. -/
inductive FetchedRecord where
  | noWiki (lccn dbId : String) (viafLog : Option LogWrite)
  | withWiki (lccn dbId pref wikiId : String) (p244 : List WikiClaim)
deriving DecidableEq, Repr

/-- The `db_id` of a fetched record. -/
def FetchedRecord.dbId : FetchedRecord → String
  | noWiki _ d _ => d
  | withWiki _ d _ _ _ => d

/-- One iteration of the `for l in to_check` loop of `script.py:248-507`:
a record without a Wikidata id gets its ledger row inserted immediately
(`script.py:306-312`) plus the possible VIAF suggestion; a record with one goes
through `processWiki`. -/
def processFetched (today : String) : FetchedRecord → RecordOutcome
  | .noWiki _ dbId viafLog =>
    { logs := viafLog.toList, ledgerKeys := [dbId], addedClaim := none
      brk := false, lccnsToCheck := [] }
  | .withWiki lccn dbId pref wikiId p244 =>
    processWiki lccn dbId pref wikiId today p244

/-- Everything one feed page's record loop produces. -/
structure PageOutcome where
  logs : List LogWrite
  ledgerKeys : List String
  addedClaims : List LccnIdClaim
  lccnsToCheck : List String
  unprocessed : List FetchedRecord
deriving DecidableEq, Repr

/-- The whole `for l in to_check` loop: records are processed in order; when an
iteration ends in the `break` of `script.py:499` the remaining records of the
page are left unprocessed. -/
def processPage (today : String) : List FetchedRecord → PageOutcome
  | [] =>
    { logs := [], ledgerKeys := [], addedClaims := [], lccnsToCheck := []
      unprocessed := [] }
  | r :: rs =>
    let o := processFetched today r
    if o.brk then
      { logs := o.logs, ledgerKeys := o.ledgerKeys
        addedClaims := o.addedClaim.toList
        lccnsToCheck := o.lccnsToCheck, unprocessed := rs }
    else
      let p := processPage today rs
      { logs := o.logs ++ p.logs
        ledgerKeys := o.ledgerKeys ++ p.ledgerKeys
        addedClaims := o.addedClaim.toList ++ p.addedClaims
        lccnsToCheck := o.lccnsToCheck ++ p.lccnsToCheck
        unprocessed := p.unprocessed }

/-- `script.py:518-545`: for each lccn collected during the page, ask the SPARQL
endpoint which items carry it as a P244 value (`qidsFor` stands for the bindings
the query returns) and log `MULTI_LCCN_IN_WIKI` when more than one does. -/
def duplicateCheck (qidsFor : String → List String) (lccns : List String) :
    List LogWrite :=
  lccns.foldl
    (fun acc lccn =>
      let multiQid := qidsFor lccn
      if multiQid.length > 1 then
        acc ++ [multiLccnLog lccn (String.intercalate "," multiQid)]
      else acc)
    []

/-! ### The identifier extractors (`script.py:77-90`)

`re.findall` for the two concrete patterns, on character lists, with fuel for
structural recursion (the fuel is always the input length, and every call
consumes at least one character per unit). -/

/-- Python's `str.split(sep)` for a one-character separator, on characters:
`""` splits to `[[]]`, and every separator occurrence opens a new chunk. -/
def splitOnChar (sep : Char) : List Char → List (List Char)
  | [] => [[]]
  | c :: rest =>
    match splitOnChar sep rest with
    | [] => [[]]
    | s :: ss => if c = sep then [] :: s :: ss else (c :: s) :: ss

/-- Python's `str.split(sep)` for a one-character separator. -/
def pySplit (sep : Char) (s : String) : List String :=
  (splitOnChar sep s.toList).map String.mk

/-- Literal `viaf/` of the pattern `viaf/[0-9]+`. -/
def viafPat : List Char := ['v', 'i', 'a', 'f', '/']

/-- Left-to-right non-overlapping scan for `viaf/[0-9]+`: at a position starting
with `viaf/` followed by at least one digit, the match takes the maximal digit
run and scanning resumes after it; otherwise advance one character. -/
def viafScan : Nat → List Char → List String
  | 0, _ => []
  | _, [] => []
  | fuel + 1, c :: rest =>
    if (c :: rest).take 5 = viafPat then
      let after := rest.drop 4
      let ds := after.takeWhile Char.isDigit
      if ds.length > 0 then
        String.mk (viafPat ++ ds) :: viafScan fuel (after.drop ds.length)
      else viafScan fuel rest
    else viafScan fuel rest

/-- `re.findall(r'viaf/[0-9]+', field)`. -/
def viafFindall (s : String) : List String :=
  viafScan s.toList.length s.toList

/-- `script.py:85-90`: return the trailing path segment of the single match,
`False` (here `none`) unless exactly one match was found. -/
def extract_viaf (field : String) : Option String :=
  let reg_results := viafFindall field
  if reg_results.length = 1 then
    some ((pySplit '/' (reg_results.getD 0 "")).getLastD "")
  else none

/-- Literal `wikidata.org/` of the pattern `wikidata\.org/.*/Q[0-9]+`. -/
def wdPat : List Char :=
  ['w', 'i', 'k', 'i', 'd', 'a', 't', 'a', '.', 'o', 'r', 'g', '/']

/-- Does this suffix begin with `/Q` followed by a digit? -/
def slashQDigit : List Char → Bool
  | '/' :: 'Q' :: d :: _ => d.isDigit
  | _ => false

/-- Greedy resolution of `.*`: the largest `k ≤ lim` such that the suffix after
`k` characters begins with `/Q` and a digit (backtracking from the longest). -/
def bestK (tail : List Char) (lim : Nat) : Option Nat :=
  (List.range (lim + 1)).reverse.find? (fun k => slashQDigit (tail.drop k))

/-- Left-to-right non-overlapping scan for `wikidata\.org/.*/Q[0-9]+`: at a
position starting with `wikidata.org/`, `.*` (which cannot cross a newline)
greedily extends to the last `/Q<digit>` on the line, then `[0-9]+` takes the
maximal digit run; scanning resumes after the match.  Otherwise advance one
character. -/
def wdScan : Nat → List Char → List String
  | 0, _ => []
  | _, [] => []
  | fuel + 1, c :: rest =>
    let cs := c :: rest
    if cs.take 13 = wdPat then
      let tail := cs.drop 13
      let lim := (tail.takeWhile (fun ch => ch ≠ '\n')).length
      match bestK tail lim with
      | some k =>
        let ds := (tail.drop (k + 2)).takeWhile Char.isDigit
        String.mk (wdPat ++ tail.take k ++ ['/', 'Q'] ++ ds) ::
          wdScan fuel ((tail.drop (k + 2)).drop ds.length)
      | none => wdScan fuel rest
    else wdScan fuel rest

/-- `re.findall(r'wikidata\.org/.*/Q[0-9]+', field)`. -/
def wdFindall (s : String) : List String :=
  wdScan s.toList.length s.toList

/-- `script.py:77-82`: return the trailing path segment of the single match,
`False` (here `none`) unless exactly one match was found. -/
def extract_wikidata (field : String) : Option String :=
  let reg_results := wdFindall field
  if reg_results.length = 1 then
    some ((pySplit '/' (reg_results.getD 0 "")).getLastD "")
  else none

/-! ### The AI-assisted matcher (`src/lib/llm.py`)

`return_wikidata(qid)['prompt']` and `build_lc_data(lccn)` aggregate remote
data; they appear here as the oracle functions `wikiPromptOf` and
`lccnPromptOf`.  `send_prompt` performs the model call; which call (if any)
`auto_route_prompt` makes is reified in `RouteResult`. -/

/-- The dict returned by the two prompt builders of `llm.py`. -/
structure PromptResult where
  error : Bool
  error_message : String
  prompt : String
deriving DecidableEq, Repr

/-- `len(s.split("\n"))`. -/
def nLines (s : String) : Nat :=
  (pySplit '\n' s).length

/-- The instruction text of `build_prompt_one_to_one` (`llm.py:163`). -/
def oneToOneIntro : String :=
  "You are a helpful assistant comparing entities between two systems. You will be given an entity and data about it along with a possible matche from another database.  You are trying to identifiy if the entity is a good match. Reply in JSON Object with two keys, \"match\" that is a true or false boolean value if the two entities are a good match and \"reason\" a short one sentence explanation for your reasoning why they are or are not a good match."

/-- The instruction text of `build_prompt_single_wiki_to_lccns` (`llm.py:124`). -/
def singleWikiIntro : String :=
  "You are a helpful assistant comparing entities between multiple sources. You will be given an entity and data about it along with multiple possible matches from another database.  You are trying to identifiy which entitiy is the best match. Reply in JSON Object with two keys, \"match\" that is the LCCN identfier for the correct match and \"reason\" a short one sentence explanation for your reasoning. If all the options do not appear correct set match to \"None\"."

/-- The per-candidate section appended for an LCCN (`llm.py:150` / `llm.py:188`). -/
def lccnSection (lccn lccnPrompt : String) : String :=
  "\n-------------------------------\nThis is a possible match LCCN: " ++ lccn ++ " \n " ++ lccnPrompt ++ " \n"

/-- `llm.py:160-195`.  The `(error, error_message, prompt)` state after each
check; note `llm.py:188` appends the LCCN section even when a check already
emptied the prompt. -/
def build_prompt_one_to_one (wikiPromptOf lccnPromptOf : String → String)
    (qid lccn : String) : PromptResult :=
  let wiki_prompt := wikiPromptOf qid
  let p1 := oneToOneIntro ++ "\n\nThis is the source entitiy and it's data you are comparing: \n " ++ qid ++ " \n " ++ wiki_prompt ++ " \n"
  let s1 : Bool × String × String :=
    if nLines wiki_prompt < 3 then
      (true, "Not enough information in Wikidata prompt", "")
    else (false, "", p1)
  let lccn_prompt := lccnPromptOf lccn
  let s2 : Bool × String × String :=
    if nLines lccn_prompt < 3 then
      (true, "Not enough information in LCCN prompt", "")
    else s1
  { error := s2.1, error_message := s2.2.1
    prompt := s2.2.2 ++ lccnSection lccn lccn_prompt }

/-- The `for lccn in lccns` loop of `llm.py:141-150`, carrying
`(error, error_message, prompt)`; a thin LCCN block sets the error, empties the
prompt and `break`s. -/
def promptLoop (lccnPromptOf : String → String) :
    List String → Bool × String × String → Bool × String × String
  | [], s => s
  | lccn :: rest, s =>
    let lccn_prompt := lccnPromptOf lccn
    if nLines lccn_prompt < 3 then
      (true, "Not enough information in LCCN prompt", "")
    else
      promptLoop lccnPromptOf rest (s.1, s.2.1, s.2.2 ++ lccnSection lccn lccn_prompt)

/-- `llm.py:121-157`. -/
def build_prompt_single_wiki_to_lccns (wikiPromptOf lccnPromptOf : String → String)
    (qid : String) (lccns : List String) : PromptResult :=
  let wiki_prompt := wikiPromptOf qid
  let p1 := singleWikiIntro ++ "\n\nThis is the source entitiy and it's data you are trying to find the best match for: \n " ++ qid ++ " \n " ++ wiki_prompt ++ " \n"
  let s1 : Bool × String × String :=
    if nLines wiki_prompt < 3 then
      (true, "Not enough information in Wikidata prompt", "")
    else (false, "", p1)
  let r := promptLoop lccnPromptOf lccns s1
  { error := r.1, error_message := r.2.1, prompt := r.2.2 }

/-- What `auto_route_prompt` does with its inputs: `modelCall` is
`send_prompt(prompt_string, match_is_boolean)`; `modelCallRaw` is the
`send_prompt(prompt)` of `llm.py:222`, which passes the whole builder dict as
the model contents; `errorResult` is the `{"error": ...}` dict; `noneResult`
is falling off the end of the function. -/
inductive RouteResult where
  | modelCall (contents : String) (booleanSchema : Bool)
  | modelCallRaw (pr : PromptResult)
  | errorResult (msg : String)
  | noneResult
deriving DecidableEq, Repr

/-- Does the route result reach `send_prompt` (i.e. invoke the language model)? -/
def invokesModel : RouteResult → Bool
  | .modelCall _ _ => true
  | .modelCallRaw _ => true
  | _ => false

/-- `llm.py:197-225`, the list/list arm: one qid and one lccn route to the
one-to-one builder whose error flag is checked before calling the model; one
qid and several lccns route to `build_prompt_single_wiki_to_lccns` whose result
dict is passed to `send_prompt` unconditionally (`llm.py:220-222`); several
qids with one lccn `pass`; everything else falls through (`None`). -/
def auto_route_prompt (wikiPromptOf lccnPromptOf : String → String)
    (qids lccns : List String) : RouteResult :=
  match qids, lccns with
  | [qid], [lccn] =>
    let pr := build_prompt_one_to_one wikiPromptOf lccnPromptOf qid lccn
    if pr.error != true then
      RouteResult.modelCall pr.prompt true
    else
      RouteResult.errorResult pr.error_message
  | [qid], _ :: _ :: _ =>
    RouteResult.modelCallRaw
      (build_prompt_single_wiki_to_lccns wikiPromptOf lccnPromptOf qid lccns)
  | _, _ => RouteResult.noneResult

/-! ### Helper lemmas -/

/-- Every log entry a matching claim produces is a qualifier change or addition. -/
theorem handleMatchingClaim_actions (lccn wikiId pref dbId : String) (c : WikiClaim) :
    ∀ lw ∈ (handleMatchingClaim lccn wikiId pref dbId c).logs,
      lw.action = "NAMED_AS_CHANGE" ∨ lw.action = "NAMED_AS_ADDED" := by
  intro lw hlw
  by_cases h : c.namedAs.length > 0
  · rcases hu : (updateNamedAs pref c.namedAs).2 with _ | old
    · simp [handleMatchingClaim, h, hu] at hlw
    · simp [handleMatchingClaim, h, hu] at hlw
      left
      rw [hlw]
      rfl
  · simp [handleMatchingClaim, h] at hlw
    right
    rw [hlw]
    rfl

/-- Every log entry of the claim loop is a qualifier change or addition. -/
theorem claimLoop_actions (lccn wikiId pref dbId : String) (cs : List WikiClaim) :
    ∀ lw ∈ (claimLoop lccn wikiId pref dbId cs).1,
      lw.action = "NAMED_AS_CHANGE" ∨ lw.action = "NAMED_AS_ADDED" := by
  induction cs with
  | nil => intro lw hlw; simp [claimLoop] at hlw
  | cons c cs ih =>
    intro lw hlw
    by_cases h : lcMatch lccn c
    · simp [claimLoop, h] at hlw
      rcases hlw with hlw | hlw
      · exact handleMatchingClaim_actions lccn wikiId pref dbId c lw hlw
      · exact ih lw hlw
    · simp [claimLoop, h] at hlw
      exact ih lw hlw

/-- The claim loop is silent when no claim value matches the source LCCN. -/
theorem claimLoop_nomatch (lccn wikiId pref dbId : String) (cs : List WikiClaim)
    (h : ∀ c ∈ cs, lcMatch lccn c = false) :
    claimLoop lccn wikiId pref dbId cs = ([], []) := by
  induction cs with
  | nil => rfl
  | cons c cs ih =>
    have hc : lcMatch lccn c = false := h c (by simp)
    have hrest := ih (fun c' hc' => h c' (by simp [hc']))
    simp [claimLoop, hc, hrest]

/-- The qualifier loop leaves everything alone when every stripped entry equals
the preferred label. -/
theorem updateNamedAs_all_eq (pref : String) (qs : List String)
    (h : ∀ q ∈ qs, pyStrip q = pref) :
    updateNamedAs pref qs = (qs, none) := by
  induction qs with
  | nil => rfl
  | cons q qs ih =>
    have hq : differs pref q = false := by
      simp [differs, h q (by simp)]
    have hrest := ih (fun q' h' => h q' (by simp [h']))
    simp [updateNamedAs, hq, hrest]

/-- With at least one differing entry, the qualifier loop overwrites exactly the
first differing entry with the preferred label and reports its old value. -/
theorem updateNamedAs_first_diff (pref : String) (qs : List String)
    (h : ∃ q ∈ qs, differs pref q = true) :
    updateNamedAs pref qs =
      (qs.set (qs.findIdx (differs pref)) pref,
       some (qs.getD (qs.findIdx (differs pref)) "")) := by
  induction qs with
  | nil => simp at h
  | cons q qs ih =>
    by_cases hq : differs pref q
    · simp [updateNamedAs, hq, List.findIdx_cons]
    · obtain ⟨q', hq', hd⟩ := h
      rcases List.mem_cons.mp hq' with rfl | hmem
      · exact absurd hd (by simpa using hq)
      · have hrec := ih ⟨q', hmem, hd⟩
        simp [updateNamedAs, hq, hrec, List.findIdx_cons]

end LccnBot

namespace LccnBot

/-- C2: for a single-candidate record whose target snapshot has no P244 claims,
the engine emits exactly one decision, `AddClaim` with value the source record's
LCCN and a P1810 "named as" qualifier equal to the preferred label
(`script.py:464-494`). -/
theorem c2_addclaim_on_empty_snapshot (lccn dbId pref wikiId today : String) :
    processWiki lccn dbId pref wikiId today [] =
      { logs := [addP244Log lccn wikiId]
        ledgerKeys := []
        addedClaim := some
          { value := lccn, namedAs := [pref]
            references := [("P248", "Q18912790"), ("P813", "+" ++ today ++ "T00:00:00Z")] }
        brk := true
        lccnsToCheck := [] } := by
  rfl

/-- C1: for a single-candidate record whose target snapshot has at least one
P244 claim, the engine never adds a claim; the snapshot is searched
case-insensitively for the source record's own LCCN, and when none matches the
only decision is the claim-mismatch review item (the `NEED_REVIEW` entry of
`script.py:456`, the spec's `FlagForReview{reason: "claim-mismatch"}`) — no
second claim is added. -/
theorem c1_no_addclaim_when_claims_present (lccn dbId pref wikiId today : String)
    (p244 : List WikiClaim) (hne : p244 ≠ []) :
    (processWiki lccn dbId pref wikiId today p244).addedClaim = none ∧
    (∀ lw ∈ (processWiki lccn dbId pref wikiId today p244).logs,
      lw.action ≠ "ADD_P244") ∧
    ((∀ c ∈ p244, lcMatch lccn c = false) →
      (processWiki lccn dbId pref wikiId today p244).logs =
        [claimMismatchLog lccn wikiId]) := by
  have hlen : p244.length > 0 := List.length_pos.mpr hne
  refine ⟨?_, ?_, ?_⟩
  · unfold processWiki
    rw [if_pos hlen]
    by_cases hany : p244.any (lcMatch lccn) <;> simp [hany]
  · intro lw hlw
    unfold processWiki at hlw
    rw [if_pos hlen] at hlw
    by_cases hany : p244.any (lcMatch lccn)
    · simp [hany] at hlw
      rcases claimLoop_actions lccn wikiId pref dbId p244 lw hlw with h | h <;>
        · rw [h]; decide
    · simp [hany] at hlw
      rcases hlw with hlw | hlw
      · rcases claimLoop_actions lccn wikiId pref dbId p244 lw hlw with h | h <;>
          · rw [h]; decide
      · rw [hlw]
        show ("NEED_REVIEW" : String) ≠ "ADD_P244"
        decide
  · intro hall
    have hany : p244.any (lcMatch lccn) = false := by
      simp only [List.any_eq_false]
      intro c hc
      simp [hall c hc]
    unfold processWiki
    rw [if_pos hlen]
    simp [hany, claimLoop_nomatch lccn wikiId pref dbId p244 hall]

/-- Witness for C1 at a concrete snapshot containing one non-matching claim. -/
theorem c1_witness :
    (([⟨"n00000001", []⟩] : List WikiClaim) ≠ []) ∧
    ((processWiki "n123" "key" "Label" "Q1" "2026-10-12"
        [⟨"n00000001", []⟩]).addedClaim = none ∧
     (∀ lw ∈ (processWiki "n123" "key" "Label" "Q1" "2026-10-12"
        [⟨"n00000001", []⟩]).logs, lw.action ≠ "ADD_P244") ∧
     ((∀ c ∈ ([⟨"n00000001", []⟩] : List WikiClaim), lcMatch "n123" c = false) →
       (processWiki "n123" "key" "Label" "Q1" "2026-10-12"
         [⟨"n00000001", []⟩]).logs = [claimMismatchLog "n123" "Q1"])) :=
  ⟨by simp,
   c1_no_addclaim_when_claims_present "n123" "key" "Label" "Q1" "2026-10-12"
     [⟨"n00000001", []⟩] (by simp)⟩

/-- C3: for a matched claim with at least one P1810 qualifier entry whose
stripped value differs from the preferred label, exactly one `NAMED_AS_CHANGE`
decision is produced (the spec's `UpdateQualifier`), its old value is the first
differing entry's original value and its new value is the preferred label; only
that first entry is overwritten and every other entry is left unchanged —
in particular, with exactly one differing entry exactly one update happens, and
with several differing entries only the first is updated. -/
theorem c3_single_qualifier_update (lccn wikiId pref dbId v : String)
    (qs : List String) (h : ∃ q ∈ qs, differs pref q = true) :
    (handleMatchingClaim lccn wikiId pref dbId ⟨v, qs⟩).logs =
      [namedAsChangeLog lccn wikiId (qs.getD (qs.findIdx (differs pref)) "") pref] ∧
    (handleMatchingClaim lccn wikiId pref dbId ⟨v, qs⟩).namedAs =
      qs.set (qs.findIdx (differs pref)) pref := by
  have hne : qs ≠ [] := by rintro rfl; simp at h
  have hlen : qs.length > 0 := List.length_pos.mpr hne
  have hu := updateNamedAs_first_diff pref qs h
  constructor <;> simp [handleMatchingClaim, hlen, hu]

/-- Witness for C3: one qualifier entry `"Old Label"`, label `"New Label"`. -/
theorem c3_witness :
    (handleMatchingClaim "n80001234" "Q42" "New Label" "key"
        ⟨"n80001234", ["Old Label"]⟩).logs =
      [namedAsChangeLog "n80001234" "Q42" "Old Label" "New Label"] ∧
    (handleMatchingClaim "n80001234" "Q42" "New Label" "key"
        ⟨"n80001234", ["Old Label"]⟩).namedAs = ["New Label"] := by
  have h := c3_single_qualifier_update "n80001234" "Q42" "New Label" "key"
    "n80001234" ["Old Label"] ⟨"Old Label", by simp, by decide⟩
  exact ⟨h.1.trans (by decide), h.2.trans (by decide)⟩

/-- C10: the qualifier comparison strips surrounding whitespace
(`script.py:402`), so when every P1810 entry equals the preferred label after
trimming — in particular an entry differing from it only by surrounding
whitespace — no `NAMED_AS_CHANGE` decision is produced and the qualifiers are
left unchanged. -/
theorem c10_whitespace_only_noop (lccn wikiId pref dbId v : String)
    (qs : List String) (hne : qs ≠ []) (h : ∀ q ∈ qs, pyStrip q = pref) :
    (handleMatchingClaim lccn wikiId pref dbId ⟨v, qs⟩).logs = [] ∧
    (handleMatchingClaim lccn wikiId pref dbId ⟨v, qs⟩).namedAs = qs := by
  have hlen : qs.length > 0 := List.length_pos.mpr hne
  have hu := updateNamedAs_all_eq pref qs h
  constructor <;> simp [handleMatchingClaim, hlen, hu]

/-- Witness for C10: the qualifier `"  New Label  "` differs from the label
`"New Label"` only by surrounding whitespace and yields no update. -/
theorem c10_witness :
    ("  New Label  " ≠ "New Label") ∧
    (handleMatchingClaim "n1" "Q1" "New Label" "key"
        ⟨"n1", ["  New Label  "]⟩).logs = [] ∧
    (handleMatchingClaim "n1" "Q1" "New Label" "key"
        ⟨"n1", ["  New Label  "]⟩).namedAs = ["  New Label  "] := by
  refine ⟨by decide, ?_, ?_⟩ <;>
    · have h := c10_whitespace_only_noop "n1" "Q1" "New Label" "key" "n1"
        ["  New Label  "] (by simp) (by intro q hq; simp at hq; rw [hq]; decide)
      simp [h.1, h.2]

/-- C4 is violated by the code: a concrete record whose target snapshot has no
P244 claims completes processing with an applied `AddClaim` (the `ADD_P244` log
entry and the written claim are produced), yet no ledger row is inserted — the
`break` at `script.py:499` precedes the INSERT at `script.py:504-507`, which is
unreachable — so the seen-check would not skip a re-delivery of the same
`(recordId, publishedAt, updatedAt)` triple. -/
theorem c4_addclaim_path_skips_ledger_write :
    (processFetched "2026-10-12"
        (.withWiki "n79021164" (mkKey "n79021164" "2024-01-01" "2024-01-02")
          "Adams, Douglas, 1952-2001" "Q42" [])).logs =
      [addP244Log "n79021164" "Q42"] ∧
    (processFetched "2026-10-12"
        (.withWiki "n79021164" (mkKey "n79021164" "2024-01-01" "2024-01-02")
          "Adams, Douglas, 1952-2001" "Q42" [])).addedClaim.isSome = true ∧
    (processFetched "2026-10-12"
        (.withWiki "n79021164" (mkKey "n79021164" "2024-01-01" "2024-01-02")
          "Adams, Douglas, 1952-2001" "Q42" [])).ledgerKeys = [] ∧
    seen [] (mkKey "n79021164" "2024-01-01" "2024-01-02") = false :=
  ⟨rfl, rfl, rfl, rfl⟩

/-- C5 is violated by the code: the only append to
`lccns_to_check_wikidata_count` sits after the `break` of `script.py:499` and is
unreachable, so for every page the list handed to the SPARQL duplicate check is
empty and — whatever the SPARQL endpoint would answer — no `MULTI_LCCN_IN_WIKI`
review item is ever produced. -/
theorem c5_multi_lccn_check_never_fires (today : String)
    (page : List FetchedRecord) (qidsFor : String → List String) :
    (processPage today page).lccnsToCheck = [] ∧
    duplicateCheck qidsFor (processPage today page).lccnsToCheck = [] := by
  have hrec : ∀ r, (processFetched today r).lccnsToCheck = [] := by
    intro r
    cases r with
    | noWiki l d v => rfl
    | withWiki l d p q cl =>
      show (processWiki l d p q today cl).lccnsToCheck = []
      unfold processWiki
      by_cases h : cl.length > 0
      · rw [if_pos h]
        by_cases hany : cl.any (lcMatch l) <;> simp [hany]
      · rw [if_neg h]
  have hpage : ∀ pg, (processPage today pg).lccnsToCheck = [] := by
    intro pg
    induction pg with
    | nil => rfl
    | cons r rs ih =>
      unfold processPage
      by_cases hb : (processFetched today r).brk <;> simp [hb, hrec, ih]
  exact ⟨hpage page, by rw [hpage page]; rfl⟩

/-- C9: within one feed page at most one `AddClaim` write is performed, and a
page whose first record has a Wikidata id and an empty P244 snapshot ends right
there: the claim is written, the `ADD_P244` entry logged, and the remaining
records of the page are left unprocessed (`break`, `script.py:499`). -/
theorem c9_break_after_first_addclaim (today : String) :
    (∀ page, (processPage today page).addedClaims.length ≤ 1) ∧
    (∀ lccn dbId pref wikiId rs,
      processPage today (.withWiki lccn dbId pref wikiId [] :: rs) =
        { logs := [addP244Log lccn wikiId]
          ledgerKeys := []
          addedClaims := [⟨lccn, [pref],
            [("P248", "Q18912790"), ("P813", "+" ++ today ++ "T00:00:00Z")]⟩]
          lccnsToCheck := []
          unprocessed := rs }) := by
  constructor
  · have hnone : ∀ r, (processFetched today r).brk = false →
        (processFetched today r).addedClaim = none := by
      intro r
      cases r with
      | noWiki l d v => intro _; rfl
      | withWiki l d p q cl =>
        show (processWiki l d p q today cl).brk = false →
          (processWiki l d p q today cl).addedClaim = none
        unfold processWiki
        by_cases h : cl.length > 0
        · rw [if_pos h]
          by_cases hany : cl.any (lcMatch l) <;> simp [hany]
        · rw [if_neg h]
          intro hb
          simp at hb
    intro page
    induction page with
    | nil => simp [processPage]
    | cons r rs ih =>
      unfold processPage
      by_cases hb : (processFetched today r).brk
      · simp only [hb, if_true]
        cases hoc : (processFetched today r).addedClaim <;> simp [hoc]
      · have h0 := hnone r (by simpa using hb)
        simp [hb, h0, ih]
  · intro lccn dbId pref wikiId rs
    rfl

/-- An oracle returning a one-line Wikidata text block (fewer than 3 lines). -/
def thinWikiOracle : String → String := fun _ => "Q5 instance of human"

/-- An oracle returning a three-line LCCN text block. -/
def richLccnOracle : String → String := fun _ => "n1\nheading line\nnote line"

/-- C6 is violated by the code: with one qid and several lccns and a source
text block of a single line, `build_prompt_single_wiki_to_lccns` does set its
`insufficient-data` error flag, but `auto_route_prompt` passes its result to
`send_prompt` without checking that flag (`llm.py:220-222`), so the language
model is invoked anyway (the one-qid/one-lccn branches do check the flag). -/
theorem c6_model_invoked_on_thin_block :
    nLines (thinWikiOracle "Q5") < 3 ∧
    (build_prompt_single_wiki_to_lccns thinWikiOracle richLccnOracle "Q5"
      ["n1", "n2"]).error = true ∧
    invokesModel (auto_route_prompt thinWikiOracle richLccnOracle ["Q5"]
      ["n1", "n2"]) = true ∧
    auto_route_prompt thinWikiOracle richLccnOracle ["Q5"] ["n1"] =
      RouteResult.errorResult "Not enough information in Wikidata prompt" := by
  refine ⟨by decide, by decide, rfl, by decide⟩

/-- C7 fails as stated: at `script.py:77-90` multiple matches of the same kind
are not all collected.  Two `viaf/<digits>` matches in one field make
`extract_viaf` return `False` (nothing is collected), and two Wikidata URLs on
one line are swallowed by the greedy `.*` into a single match from which only
the trailing QID is taken. -/
theorem c7_counterexample :
    viafFindall "$a viaf/123 viaf/456" = ["viaf/123", "viaf/456"] ∧
    extract_viaf "$a viaf/123 viaf/456" = none ∧
    wdFindall "wikidata.org/wiki/Q42 wikidata.org/wiki/Q64" =
      ["wikidata.org/wiki/Q42 wikidata.org/wiki/Q64"] ∧
    extract_wikidata "wikidata.org/wiki/Q42 wikidata.org/wiki/Q64" =
      some "Q64" := by
  refine ⟨by decide, by decide, by decide, by decide⟩

/-- C7 amended: whenever the pattern finds two or more matches in a field, the
extractors collect none of them and return `False`; the extractors never hand
more than one candidate of a kind to the caller. -/
theorem c7_multi_match_collects_nothing (field1 field2 : String)
    (h1 : 2 ≤ (viafFindall field1).length)
    (h2 : 2 ≤ (wdFindall field2).length) :
    extract_viaf field1 = none ∧ extract_wikidata field2 = none := by
  constructor
  · unfold extract_viaf
    rw [if_neg (by omega)]
  · unfold extract_wikidata
    rw [if_neg (by omega)]

/-- Witness for the amended C7 at concrete fields with two matches each. -/
theorem c7_amended_witness :
    2 ≤ (viafFindall "$a viaf/123 viaf/456").length ∧
    2 ≤ (wdFindall "wikidata.org/wiki/Q42\nwikidata.org/wiki/Q64").length ∧
    extract_viaf "$a viaf/123 viaf/456" = none ∧
    extract_wikidata "wikidata.org/wiki/Q42\nwikidata.org/wiki/Q64" = none := by
  have h := c7_multi_match_collects_nothing "$a viaf/123 viaf/456"
    "wikidata.org/wiki/Q42\nwikidata.org/wiki/Q64" (by decide) (by decide)
  exact ⟨by decide, by decide, h.1, h.2⟩

/-- C8: `prune` keeps exactly the ledger entries whose timestamp is at or above
`now - 2_592_000` (30 days), unchanged and in order; every surviving entry is
at or above the cutoff; and the count it reports plus the surviving entries
make up the whole table, i.e. the count is exactly the number of entries
removed. -/
theorem c8_prune_retention (db : List LedgerEntry) (now : Int) :
    (prune db now).1 =
      db.filter (fun e => decide (now - 2592000 ≤ e.timestamp)) ∧
    (∀ e ∈ (prune db now).1, now - 2592000 ≤ e.timestamp) ∧
    (prune db now).2 + (prune db now).1.length = db.length := by
  have hfun : (fun e : LedgerEntry => ! decide (e.timestamp < now - 2592000)) =
      (fun e : LedgerEntry => decide (now - 2592000 ≤ e.timestamp)) := by
    funext e
    by_cases h : e.timestamp < now - 2592000
    · have h2 : ¬ (now - 2592000 ≤ e.timestamp) := not_le.mpr h
      simp [h, h2]
    · have h2 : now - 2592000 ≤ e.timestamp := not_lt.mp h
      simp [h, h2]
  refine ⟨?_, ?_, ?_⟩
  · show db.filter (fun e => ! decide (e.timestamp < now - 2592000)) =
      db.filter (fun e => decide (now - 2592000 ≤ e.timestamp))
    rw [hfun]
  · intro e he
    have hm : e ∈ db.filter
        (fun e => ! decide (e.timestamp < now - 2592000)) := he
    rw [List.mem_filter] at hm
    have := hm.2
    simp at this
    omega
  · show (db.filter (fun e => decide (e.timestamp < now - 2592000))).length +
      (db.filter (fun e => ! decide (e.timestamp < now - 2592000))).length =
      db.length
    exact (List.length_eq_length_filter_add
      (fun e : LedgerEntry => decide (e.timestamp < now - 2592000))).symm

end LccnBot
